import Mathlib

/-!
Shallow embedding of check_syntax.py: a startup utility that walks a
directory tree, parses every Python source file, collects syntax issues,
reports them best-effort to an HTTP endpoint, and exits 0 or 1.

External effects are made explicit: the result of reading and parsing a
file is an abstract outcome value, the environment is a record of the two
consumed variables, and the network is an abstract outcome of the single
POST attempt. All formatting and control flow is translated directly from
the source.
-/

namespace CheckSyntaxPy

/-- Model of Python membership test on strings (needle in hay), as a
contiguous-substring check on the character lists. -/
def listContainsSub (needle : List Char) : List Char → Bool
  | [] => needle.isEmpty
  | c :: t => List.isPrefixOf needle (c :: t) || listContainsSub needle t

/-- Python substring containment: needle appears contiguously in hay. -/
def isSubstring (needle hay : String) : Bool :=
  listContainsSub needle.data hay.data

/-- Model of Python str.endswith on the character lists. -/
def strEndsWith (s suffix : String) : Bool :=
  List.isSuffixOf suffix.data s.data

/-- Model of os.path.basename on POSIX: the part of the path after the
last slash (empty when the path ends with a slash). -/
def basename (p : String) : String :=
  String.mk ((p.data.reverse.takeWhile (fun c => c != '/')).reverse)

/-- The directory part that basename strips: everything up to and
including the last slash. Used to state what basename removes. -/
def dirnameOf (p : String) : String :=
  String.mk ((p.data.reverse.dropWhile (fun c => c != '/')).reverse)

/-- Model of the Python rendering of an optional line number inside an
f-string: str(None) is the text None, str(n) is the decimal numeral. -/
def pyStrOptNat : Option Nat → String
  | none => "None"
  | some n => toString n

/-- The dict built by check_syntax for a failing file: keys file, line,
message, text, offset (spec data model SyntaxIssue). -/
structure SyntaxIssue where
  file : String
  line : Option Nat
  message : String
  text : Option String
  offset : Option Nat
deriving DecidableEq

/-- Abstract outcome of opening, reading and ast.parse on one file: a
clean parse, a structured SyntaxError carrying lineno, str(e), text and
offset, or any other exception (unreadable or non-decodable file)
carrying only str(e). -/
inductive ParseOutcome where
  | ok
  | syntaxError (lineno : Option Nat) (msg : String) (text : Option String) (offset : Option Nat)
  | otherError (msg : String)
deriving DecidableEq

/-- Lines 14-36 of the source: return None on a clean parse, a populated
issue dict on SyntaxError, and a dict with only file and message set on
any other exception. Totality of this definition reflects that every
branch of the source returns instead of raising. -/
def check_syntax (file_path : String) (outcome : ParseOutcome) : Option SyntaxIssue :=
  match outcome with
  | ParseOutcome.ok => none
  | ParseOutcome.syntaxError lineno msg text offset =>
      some { file := basename file_path, line := lineno, message := msg
             , text := text, offset := offset }
  | ParseOutcome.otherError msg =>
      some { file := basename file_path, line := none, message := msg
             , text := none, offset := none }

/-- The three markers tested on line 95 of the source. -/
def exclusionMarkers : List String := [".venv", "venv", "__pycache__"]

/-- Spec wording: the path contains one of the fixed exclusion markers. -/
def containsMarker (p : String) : Bool :=
  exclusionMarkers.any (fun m => isSubstring m p)

/-- Line 95 of the source: the walked directory path is skipped when it
contains .venv, venv or pycache as a substring. -/
def excludedRoot (root : String) : Bool :=
  isSubstring ".venv" root || isSubstring "venv" root || isSubstring "__pycache__" root

/-- Lines 95-99 of the source, for one os.walk entry (root, files): skip
the entry when the root is excluded, otherwise keep root/file for every
file ending in .py. -/
def processEntry (e : String × List String) : List String :=
  if excludedRoot e.1 then []
  else (e.2.filter (fun f => strEndsWith f ".py")).map (fun f => e.1 ++ "/" ++ f)

/-- The whole collection loop of lines 92-99 over an os.walk enumeration. -/
def scanFiles (L : List (String × List String)) : List String :=
  L.flatMap processEntry

mutual
/-- A directory tree: a directory name, its plain files, its subdirectories. -/
inductive FSTree where
  | dir (nm : String) (files : List String) (subs : FSForest)

/-- A list of sibling subdirectories. -/
inductive FSForest where
  | nil
  | cons (t : FSTree) (ts : FSForest)
end

/-- Name of the root directory of a tree. -/
def FSTree.nameOf : FSTree → String
  | FSTree.dir nm _ _ => nm

mutual
/-- Model of os.walk top-down: yield (root, files) for the root directory,
then recursively every subdirectory under root/name. -/
def walk (root : String) : FSTree → List (String × List String)
  | FSTree.dir _ files subs => (root, files) :: walkForest root subs

/-- Walk every tree of a forest of subdirectories of root. -/
def walkForest (root : String) : FSForest → List (String × List String)
  | FSForest.nil => []
  | FSForest.cons t ts => walk (root ++ "/" ++ FSTree.nameOf t) t ++ walkForest root ts
end

/-- Lines 92-99 of the source: the python_files list collected from
walking the tree rooted at the backend directory. -/
def pythonFiles (root : String) (tree : FSTree) : List String :=
  scanFiles (walk root tree)

/-- Lines 102-106 of the source: run check_syntax on every collected file
and keep the issues, in order. The read-and-parse outcome of each path is
supplied by the oracle. -/
def collectErrors (files : List String) (oracle : String → ParseOutcome) : List SyntaxIssue :=
  files.filterMap (fun p => check_syntax p (oracle p))

/-- Line 107 of the source: the stderr diagnostic for one issue, built
from the full path still in scope in the loop. -/
def diagnosticLine (file_path : String) (err : SyntaxIssue) : String :=
  "Syntax error in " ++ file_path ++ ": " ++ err.message ++ " at line " ++ pyStrOptNat err.line

/-- The two environment variables the script reads. -/
structure Env where
  runtime_error_endpoint_url : Option String
  board_id : Option String

/-- JSON values appearing in the payload: null, a string, or a number. -/
inductive JValue where
  | null
  | str (s : String)
  | nat (n : Nat)
deriving DecidableEq

/-- JSON encoding of an optional string: null when absent. -/
def optStr : Option String → JValue
  | none => JValue.null
  | some s => JValue.str s

/-- JSON encoding of an optional number: null when absent. -/
def optNat : Option Nat → JValue
  | none => JValue.null
  | some n => JValue.nat n

/-- Lines 48-52 of the source: one issue formatted for the aggregate
message. The Code suffix is guarded by Python truthiness of text, so it
is skipped both when text is None and when text is the empty string. -/
def formatIssueMsg (err : SyntaxIssue) : String :=
  let msg := "File: " ++ err.file ++ ", Line: " ++ pyStrOptNat err.line
      ++ ", Error: " ++ err.message
  match err.text with
  | none => msg
  | some t => if t = "" then msg else msg ++ ", Code: " ++ t.trim

/-- Line 54 of the source: the semicolon-joined aggregate message. -/
def error_message (errors : List SyntaxIssue) : String :=
  String.intercalate "; " (errors.map formatIssueMsg)

/-- Python or-expression err.line or the question mark: falsy values
(None and 0) are replaced by the question mark. -/
def pyLineOrQuestion : Option Nat → String
  | none => "?"
  | some n => if n = 0 then "?" else toString n

/-- Modelled from the spec: line 58 of the source is not valid Python
(the inner double quotes of the f-string are not escaped, so the literal
terminates early and the module fails to compile). This definition gives
the evident intent of lines 56-60, as the spec words it: one line per
issue, File quoted-name comma line number-or-question-mark. -/
def stack_trace (errors : List SyntaxIssue) : String :=
  String.intercalate "\n" (errors.map (fun err =>
    "  File \"" ++ err.file ++ "\", line " ++ pyLineOrQuestion err.line))

/-- Lines 62-73 of the source: the payload dict, in key order. -/
def buildPayload (board_id : Option String) (errors : List SyntaxIssue) :
    List (String × JValue) :=
  [("boardId", optStr board_id),
   ("timestamp", JValue.null),
   ("file", match errors with | [] => JValue.null | e :: _ => JValue.str e.file),
   ("line", match errors with | [] => JValue.null | e :: _ => optNat e.line),
   ("stackTrace", JValue.str (stack_trace errors)),
   ("message", JValue.str (error_message errors)),
   ("exceptionType", JValue.str "SyntaxError"),
   ("requestPath", JValue.str "SYNTAX_CHECK"),
   ("requestMethod", JValue.str "SYNTAX_CHECK"),
   ("userAgent", JValue.str "SYNTAX_CHECKER")]

/-- Transmission errors that make the httpx POST call raise. -/
inductive SendError where
  | networkFailure
  | timedOut
deriving DecidableEq

/-- Abstract outcome of the single client.post call: either a response
came back (any status code, 2xx or not) or the call raised. -/
inductive PostResult where
  | response (status : Nat)
  | raised (e : SendError)
deriving DecidableEq

/-- The try-body of send_error on lines 77-79: the POST either returns a
response, which the source discards, or raises. -/
def postAttempt (pr : PostResult) : Except SendError Unit :=
  match pr with
  | PostResult.response _ => Except.ok ()
  | PostResult.raised e => Except.error e

/-- Lines 76-81 of the source: the thread body wraps the POST in a bare
try-except that swallows every exception. -/
def send_error (pr : PostResult) : Except SendError Unit :=
  match postAttempt pr with
  | Except.ok u => Except.ok u
  | Except.error _ => Except.ok ()

/-- Observable behaviour of one call to the reporter: the list of POST
bodies attempted (empty when reporting is skipped) and what the caller
sees, where ok means a normal return. -/
structure SendTrace where
  requests : List (List (String × JValue))
  result : Except SendError Unit

/-- Lines 38-85 of the source: return immediately when the endpoint
variable is unset or empty (Python falsiness on line 43), otherwise build
the payload, attempt exactly one POST, and absorb any transmission error. -/
def send_syntax_error_to_endpoint (env : Env) (errors : List SyntaxIssue)
    (pr : PostResult) : SendTrace :=
  match env.runtime_error_endpoint_url with
  | none => { requests := [], result := Except.ok () }
  | some url =>
      if url = "" then { requests := [], result := Except.ok () }
      else
        { requests := [buildPayload env.board_id errors]
          , result := send_error pr }

/-- Lines 87-115 of the source: collect the issues over the walked tree,
then either report and exit 1, or exit 0. Returns the exit code and the
reporting trace. -/
def mainRun (root : String) (tree : FSTree) (oracle : String → ParseOutcome)
    (env : Env) (pr : PostResult) : Nat × SendTrace :=
  let errors := collectErrors (pythonFiles root tree) oracle
  if errors = [] then (0, { requests := [], result := Except.ok () })
  else (1, send_syntax_error_to_endpoint env errors pr)

/-! Spec-side definitions, written from the claim wording, to be compared
with the definitions translated from the source. -/

/-- Formatter following the claim wording literally: the Code suffix is
appended whenever the offending text is present, even when it is the
empty string. -/
def claimIssueMessage (err : SyntaxIssue) : String :=
  "File: " ++ err.file ++ ", Line: " ++ pyStrOptNat err.line ++ ", Error: " ++ err.message
    ++ (match err.text with
        | none => ""
        | some t => ", Code: " ++ t.trim)

/-- Formatter following the amended claim wording: the Code suffix is
appended exactly when the offending text is present and non-empty. -/
def specIssueMessage (err : SyntaxIssue) : String :=
  "File: " ++ err.file ++ ", Line: " ++ pyStrOptNat err.line ++ ", Error: " ++ err.message
    ++ (match err.text with
        | none => ""
        | some t => if t = "" then "" else ", Code: " ++ t.trim)

/-- Aggregate message following the amended claim wording: semicolon-joined
over all issues. -/
def specMessage (errors : List SyntaxIssue) : String :=
  String.intercalate "; " (errors.map specIssueMessage)

/-- The ten payload keys the claim enumerates, in order. -/
def payloadKeys : List String :=
  ["boardId", "timestamp", "file", "line", "stackTrace", "message",
   "exceptionType", "requestPath", "requestMethod", "userAgent"]

/-! Helper lemmas about strings and the scan set. -/

/-- The separator as a character list. -/
lemma data_slash : ("/" : String).data = ['/'] := rfl

/-- The empty string has no characters. -/
lemma data_empty : ("" : String).data = [] := rfl

/-- Character data of a joined path. -/
lemma data_join (r f : String) : (r ++ "/" ++ f).data = r.data ++ '/' :: f.data := by
  rw [String.data_append, String.data_append, data_slash, List.append_assoc]
  rfl

/-- String append is associative. -/
lemma str_append_assoc (a b c : String) : a ++ b ++ c = a ++ (b ++ c) :=
  String.ext (by rw [String.data_append, String.data_append, String.data_append,
    String.data_append, List.append_assoc])

/-- Appending the empty string is the identity. -/
lemma str_append_empty (a : String) : a ++ "" = a :=
  String.ext (by rw [String.data_append, data_empty, List.append_nil])

/-- No character of the basename of a path is a slash. -/
lemma basename_no_slash (p : String) (c : Char) (hc : c ∈ (basename p).data) : c ≠ '/' := by
  have hm : c ∈ p.data.reverse.takeWhile (fun c => c != '/') := by
    have hc2 : c ∈ (p.data.reverse.takeWhile (fun c => c != '/')).reverse := hc
    exact List.mem_reverse.mp hc2
  simpa using List.mem_takeWhile_imp hm

/-- Boolean form: every character of the basename differs from a slash. -/
lemma basename_all_no_slash (p : String) :
    (basename p).data.all (fun c => c != '/') = true := by
  rw [List.all_eq_true]
  intro c hc
  simpa using basename_no_slash p c hc

/-- A dropWhile result is empty or starts with an element refuting the test. -/
lemma dropWhile_head_false (q : Char → Bool) (l : List Char) :
    List.dropWhile q l = [] ∨
      ∃ x xs, List.dropWhile q l = x :: xs ∧ q x = false := by
  induction l with
  | nil => left; rfl
  | cons a t ih =>
    by_cases h : q a
    · simpa [List.dropWhile_cons, h] using ih
    · right
      exact ⟨a, t, by simp [List.dropWhile_cons, h], by simpa using h⟩

/-- The path splits as the directory part followed by the basename, and
the directory part is empty or ends with a slash: basename strips exactly
the directory components. -/
lemma basename_decomp (p : String) :
    p = dirnameOf p ++ basename p ∧
      (dirnameOf p = "" ∨ (dirnameOf p).data.getLast? = some '/') := by
  constructor
  · apply String.ext
    rw [String.data_append]
    show p.data = (p.data.reverse.dropWhile (fun c => c != '/')).reverse
        ++ (p.data.reverse.takeWhile (fun c => c != '/')).reverse
    rw [← List.reverse_append, List.takeWhile_append_dropWhile, List.reverse_reverse]
  · rcases dropWhile_head_false (fun c => c != '/') p.data.reverse with h | ⟨x, xs, hx, hq⟩
    · left
      apply String.ext
      show (p.data.reverse.dropWhile (fun c => c != '/')).reverse = ("" : String).data
      rw [h, data_empty]
      rfl
    · right
      have hrev : (dirnameOf p).data.getLast?
          = (p.data.reverse.dropWhile (fun c => c != '/')).head? :=
        List.getLast?_reverse _
      rw [hrev, hx]
      have hxc : x = '/' := by simpa using hq
      simp [hxc]

/-- Cancellation around a separator absent from both suffixes. -/
lemma append_cons_inj {c : Char} (xs : List Char) :
    ∀ (xs₂ : List Char) {ys ys₂ : List Char}, c ∉ ys → c ∉ ys₂ →
      xs ++ c :: ys = xs₂ ++ c :: ys₂ → xs = xs₂ ∧ ys = ys₂ := by
  induction xs with
  | nil =>
    intro xs₂ ys ys₂ hy hy₂ h
    cases xs₂ with
    | nil => simpa using h
    | cons a t =>
      simp only [List.nil_append, List.cons_append, List.cons.injEq] at h
      exact absurd (h.2 ▸ List.mem_append_right t (List.mem_cons_self c ys₂)) hy
  | cons a t ih =>
    intro xs₂ ys ys₂ hy hy₂ h
    cases xs₂ with
    | nil =>
      simp only [List.nil_append, List.cons_append, List.cons.injEq] at h
      exact absurd (h.2 ▸ List.mem_append_right t (List.mem_cons_self c ys)) hy₂
    | cons b u =>
      simp only [List.cons_append, List.cons.injEq] at h
      obtain ⟨h3, h4⟩ := ih u hy hy₂ h.2
      exact ⟨by rw [h.1, h3], h4⟩

/-- Joining a directory and a slash-free file name is injective. -/
lemma join_inj {r₁ r₂ f₁ f₂ : String} (h₁ : '/' ∉ f₁.data) (h₂ : '/' ∉ f₂.data)
    (h : r₁ ++ "/" ++ f₁ = r₂ ++ "/" ++ f₂) : r₁ = r₂ ∧ f₁ = f₂ := by
  have hd : r₁.data ++ '/' :: f₁.data = r₂.data ++ '/' :: f₂.data := by
    have h2 := congrArg String.data h
    rwa [data_join, data_join] at h2
  obtain ⟨ha, hb⟩ := append_cons_inj r₁.data r₂.data h₁ h₂ hd
  exact ⟨String.ext ha, String.ext hb⟩

/-- For a fixed directory, joining is injective in the file name. -/
lemma join_left_injective (r : String) :
    Function.Injective (fun f : String => r ++ "/" ++ f) := by
  intro a b h
  have hd := congrArg String.data h
  rw [data_join, data_join] at hd
  have h2 := List.append_cancel_left hd
  exact String.ext (by simpa using h2)

/-- Membership in the files kept from one walk entry. -/
lemma mem_processEntry {p : String} {e : String × List String} :
    p ∈ processEntry e ↔
      excludedRoot e.1 = false ∧
        ∃ f, f ∈ e.2 ∧ strEndsWith f ".py" = true ∧ p = e.1 ++ "/" ++ f := by
  unfold processEntry
  cases hx : excludedRoot e.1 with
  | true => simp [hx]
  | false =>
    simp only [hx, Bool.false_eq_true, if_false, List.mem_map, List.mem_filter, true_and]
    constructor
    · rintro ⟨f, ⟨hf, hpy⟩, hEq⟩
      exact ⟨f, hf, hpy, hEq.symm⟩
    · rintro ⟨f, hf, hpy, hEq⟩
      exact ⟨f, ⟨hf, hpy⟩, hEq.symm⟩

/-- Membership in the whole scanned set. -/
lemma mem_scanFiles {p : String} {L : List (String × List String)} :
    p ∈ scanFiles L ↔
      ∃ e, e ∈ L ∧ excludedRoot e.1 = false ∧
        ∃ f, f ∈ e.2 ∧ strEndsWith f ".py" = true ∧ p = e.1 ++ "/" ++ f := by
  rw [scanFiles, List.mem_flatMap]
  constructor
  · rintro ⟨e, he, hp⟩
    obtain ⟨h1, f, hf, hpy, hEq⟩ := mem_processEntry.mp hp
    exact ⟨e, he, h1, f, hf, hpy, hEq⟩
  · rintro ⟨e, he, h1, f, hf, hpy, hEq⟩
    exact ⟨e, he, mem_processEntry.mpr ⟨h1, f, hf, hpy, hEq⟩⟩

/-- One walk entry with a duplicate-free listing contributes no duplicate
paths. -/
lemma processEntry_nodup {e : String × List String} (h : e.2.Nodup) :
    (processEntry e).Nodup := by
  unfold processEntry
  cases hx : excludedRoot e.1 with
  | true => simp
  | false =>
    simp only [Bool.false_eq_true, if_false]
    exact List.Nodup.map (join_left_injective e.1) (List.Nodup.filter _ h)

/-- The scanned set has no duplicates when the walk enumerates distinct
directories, each with a duplicate-free listing of slash-free names. -/
lemma scanFiles_nodup {L : List (String × List String)}
    (h1 : (L.map Prod.fst).Nodup) (h2 : ∀ e ∈ L, (Prod.snd e).Nodup)
    (h3 : ∀ e ∈ L, ∀ f ∈ Prod.snd e, '/' ∉ f.data) :
    (scanFiles L).Nodup := by
  rw [scanFiles, List.nodup_flatMap]
  refine ⟨fun e he => processEntry_nodup (h2 e he), ?_⟩
  have hp : List.Pairwise (fun a b : String × List String => a.1 ≠ b.1) L :=
    List.pairwise_map.mp h1
  refine List.Pairwise.imp_of_mem ?_ hp
  intro a b ha hb hne p hpa hpb
  obtain ⟨hxa, f, hf, hpy, hEq⟩ := mem_processEntry.mp hpa
  obtain ⟨hxb, g, hg, hgy, hEq2⟩ := mem_processEntry.mp hpb
  exact hne (join_inj (h3 a ha f hf) (h3 b hb g hg) (hEq.symm.trans hEq2)).1

/-- The spec phrase (the path contains an exclusion marker) coincides with
the test on line 95 of the source. -/
lemma containsMarker_eq_excludedRoot (p : String) :
    containsMarker p = excludedRoot p := by
  simp [containsMarker, excludedRoot, exclusionMarkers, Bool.or_assoc]

/-! Claim theorems. -/

/-- C1: over the embedded run logic, the exit code is 0 exactly when the
scan collected no issues and 1 exactly when it collected at least one,
independently of the environment and of the outcome of the report
transmission. The shipped module itself fails to compile at line 58, so
the real process never reaches this logic; this theorem settles the
intended behaviour of lines 109-115. -/
theorem exit_code_matches_issues (root : String) (tree : FSTree)
    (oracle : String → ParseOutcome) (env env₂ : Env) (pr pr₂ : PostResult) :
    ((mainRun root tree oracle env pr).1 = 0 ↔
        collectErrors (pythonFiles root tree) oracle = []) ∧
    ((mainRun root tree oracle env pr).1 = 1 ↔
        collectErrors (pythonFiles root tree) oracle ≠ []) ∧
    (mainRun root tree oracle env pr).1 = (mainRun root tree oracle env₂ pr₂).1 := by
  unfold mainRun
  by_cases h : collectErrors (pythonFiles root tree) oracle = [] <;> simp [h]

/-- Witness for C1 at a concrete empty scan. -/
theorem exit_code_matches_issues_witness :
    ((mainRun "/app" (FSTree.dir "app" [] FSForest.nil) (fun _ => ParseOutcome.ok)
        { runtime_error_endpoint_url := none, board_id := none }
        (PostResult.response 200)).1 = 0 ↔
      collectErrors (pythonFiles "/app" (FSTree.dir "app" [] FSForest.nil))
        (fun _ => ParseOutcome.ok) = []) ∧
    ((mainRun "/app" (FSTree.dir "app" [] FSForest.nil) (fun _ => ParseOutcome.ok)
        { runtime_error_endpoint_url := none, board_id := none }
        (PostResult.response 200)).1 = 1 ↔
      collectErrors (pythonFiles "/app" (FSTree.dir "app" [] FSForest.nil))
        (fun _ => ParseOutcome.ok) ≠ []) ∧
    (mainRun "/app" (FSTree.dir "app" [] FSForest.nil) (fun _ => ParseOutcome.ok)
        { runtime_error_endpoint_url := none, board_id := none }
        (PostResult.response 200)).1 =
      (mainRun "/app" (FSTree.dir "app" [] FSForest.nil) (fun _ => ParseOutcome.ok)
        { runtime_error_endpoint_url := some "http://collector", board_id := some "b1" }
        (PostResult.raised SendError.networkFailure)).1 :=
  exit_code_matches_issues "/app" (FSTree.dir "app" [] FSForest.nil) (fun _ => ParseOutcome.ok)
    { runtime_error_endpoint_url := none, board_id := none }
    { runtime_error_endpoint_url := some "http://collector", board_id := some "b1" }
    (PostResult.response 200) (PostResult.raised SendError.networkFailure)

/-- C2: the validator is a total function of the read-and-parse outcome;
on a clean parse it returns no issue, and on a generic exception (for
example a non-decodable file) it returns an issue whose file and message
are populated and whose line, text and offset are all absent. -/
theorem validator_total_on_generic_error (path msg : String) :
    check_syntax path ParseOutcome.ok = none ∧
    check_syntax path (ParseOutcome.otherError msg) =
      some { file := basename path, line := none, message := msg
             , text := none, offset := none } :=
  ⟨rfl, rfl⟩

/-- C3 counterexample: the scan includes a file whose full path contains
the marker venv, because the source only tests the markers against the
directory part of the path. The tree has one clean directory containing
the file venv.py. -/
theorem walker_includes_marker_named_file :
    pythonFiles "/app" (FSTree.dir "app" ["venv.py"] FSForest.nil) = ["/app/venv.py"] ∧
    containsMarker "/app/venv.py" = true := by
  exact ⟨by decide, by decide⟩

/-- C3 amended: a file whose containing directory path contains an
exclusion marker is never included, only files whose name ends in .py are
included, and - when the walk enumerates distinct directories whose
duplicate-free listings hold slash-free names, as a real file system
does - each matching file appears exactly once in the scanned set. -/
theorem walker_amended_scan_set (root : String) (tree : FSTree)
    (h1 : ((walk root tree).map Prod.fst).Nodup)
    (h2 : ∀ e ∈ walk root tree, (Prod.snd e).Nodup)
    (h3 : ∀ e ∈ walk root tree, ∀ f ∈ Prod.snd e, '/' ∉ f.data) :
    (∀ p ∈ pythonFiles root tree,
        ∃ r fs f, (r, fs) ∈ walk root tree ∧ containsMarker r = false ∧
          f ∈ fs ∧ strEndsWith f ".py" = true ∧ p = r ++ "/" ++ f) ∧
    (∀ r fs f, (r, fs) ∈ walk root tree → excludedRoot r = false → f ∈ fs →
        strEndsWith f ".py" = true → (r ++ "/" ++ f) ∈ pythonFiles root tree) ∧
    (∀ p ∈ pythonFiles root tree, (pythonFiles root tree).count p = 1) := by
  refine ⟨?_, ?_, ?_⟩
  · intro p hp
    obtain ⟨e, he, hx, f, hf, hpy, hEq⟩ := mem_scanFiles.mp hp
    refine ⟨e.1, e.2, f, ?_, ?_, hf, hpy, hEq⟩
    · rwa [Prod.mk.eta]
    · rw [containsMarker_eq_excludedRoot]
      exact hx
  · intro r fs f hmem hx hf hpy
    exact mem_scanFiles.mpr ⟨(r, fs), hmem, hx, f, hf, hpy, rfl⟩
  · intro p hp
    exact List.count_eq_one_of_mem (scanFiles_nodup h1 h2 h3) hp

/-- Witness for C3 amended at a concrete one-directory tree. -/
theorem walker_amended_scan_set_witness :
    ("/app" ++ "/" ++ "main.py") ∈
      pythonFiles "/app" (FSTree.dir "app" ["main.py"] FSForest.nil) := by
  exact (walker_amended_scan_set "/app" (FSTree.dir "app" ["main.py"] FSForest.nil)
      (by decide) (by decide) (by decide)).2.1
    "/app" ["main.py"] "main.py" (by decide) (by decide) (by decide) (by decide)

/-- C4: the validator returns no issue exactly when the text parses, and
on a structured parse failure it returns an issue carrying the line
number, message, offending text and column offset the parser exposed. -/
theorem validator_parse_result (path msg : String) (outcome : ParseOutcome)
    (lineno : Option Nat) (text : Option String) (offset : Option Nat) :
    ( check_syntax path outcome = none ↔ outcome = ParseOutcome.ok) ∧
    check_syntax path (ParseOutcome.syntaxError lineno msg text offset) =
      some { file := basename path, line := lineno, message := msg
             , text := text, offset := offset } := by
  refine ⟨?_, rfl⟩
  cases outcome <;> simp [ check_syntax]

/-- Witness for C4 at a concrete path and defect. -/
theorem validator_parse_result_witness :
    ( check_syntax "/srv/app/b.py" ParseOutcome.ok = none ↔
        ParseOutcome.ok = ParseOutcome.ok) ∧
    check_syntax "/srv/app/b.py"
        (ParseOutcome.syntaxError (some 2) "invalid syntax" (some "def f(:") (some 7)) =
      some { file := basename "/srv/app/b.py", line := some 2, message := "invalid syntax"
             , text := some "def f(:", offset := some 7 } :=
  validator_parse_result "/srv/app/b.py" "invalid syntax" ParseOutcome.ok
    (some 2) (some "def f(:") (some 7)

/-- C5: with the endpoint variable unset or empty the reporter attempts no
request and returns normally at once, and the exit code is a function of
the collected issues alone. -/
theorem reporter_skips_without_endpoint (board : Option String)
    (errors : List SyntaxIssue) (pr : PostResult)
    (root : String) (tree : FSTree) (oracle : String → ParseOutcome) :
    (send_syntax_error_to_endpoint
        { runtime_error_endpoint_url := none, board_id := board } errors pr).requests = [] ∧
    (send_syntax_error_to_endpoint
        { runtime_error_endpoint_url := none, board_id := board } errors pr).result
      = Except.ok () ∧
    (send_syntax_error_to_endpoint
        { runtime_error_endpoint_url := some "", board_id := board } errors pr).requests = [] ∧
    (send_syntax_error_to_endpoint
        { runtime_error_endpoint_url := some "", board_id := board } errors pr).result
      = Except.ok () ∧
    (mainRun root tree oracle
        { runtime_error_endpoint_url := none, board_id := board } pr).1 =
      (if collectErrors (pythonFiles root tree) oracle = [] then 0 else 1) := by
  refine ⟨rfl, rfl, rfl, rfl, ?_⟩
  unfold mainRun
  by_cases h : collectErrors (pythonFiles root tree) oracle = [] <;> simp [h]

/-- C6: with the endpoint configured, the one attempted request body is
the built payload; its keys are exactly the ten claimed ones, the fixed
fields carry the fixed sentinels, file and line come from the first
issue, timestamp is null for the endpoint to assign, and boardId is the
environment value, null when unset. -/
theorem payload_shape (board : Option String) (e : SyntaxIssue) (rest : List SyntaxIssue)
    (url : String) (hu : url ≠ "") (pr : PostResult) :
    (send_syntax_error_to_endpoint
        { runtime_error_endpoint_url := some url, board_id := board } (e :: rest) pr).requests
      = [buildPayload board (e :: rest)] ∧
    (buildPayload board (e :: rest)).map Prod.fst = payloadKeys ∧
    List.lookup "boardId" (buildPayload board (e :: rest)) = some (optStr board) ∧
    List.lookup "timestamp" (buildPayload board (e :: rest)) = some JValue.null ∧
    List.lookup "file" (buildPayload board (e :: rest)) = some (JValue.str e.file) ∧
    List.lookup "line" (buildPayload board (e :: rest)) = some (optNat e.line) ∧
    List.lookup "exceptionType" (buildPayload board (e :: rest))
      = some (JValue.str "SyntaxError") ∧
    List.lookup "requestPath" (buildPayload board (e :: rest))
      = some (JValue.str "SYNTAX_CHECK") ∧
    List.lookup "requestMethod" (buildPayload board (e :: rest))
      = some (JValue.str "SYNTAX_CHECK") ∧
    List.lookup "userAgent" (buildPayload board (e :: rest))
      = some (JValue.str "SYNTAX_CHECKER") := by
  refine ⟨?_, rfl, rfl, rfl, rfl, rfl, rfl, rfl, rfl, rfl⟩
  simp [send_syntax_error_to_endpoint, hu]

/-- Witness for C6 at a concrete issue and endpoint. -/
theorem payload_shape_witness :
    (send_syntax_error_to_endpoint
        { runtime_error_endpoint_url := some "http://collector", board_id := none }
        ([{ file := "b.py", line := some 3, message := "bad", text := none, offset := none }])
        (PostResult.response 500)).requests
      = [buildPayload none
          [{ file := "b.py", line := some 3, message := "bad", text := none, offset := none }]] ∧
    (buildPayload none
        [{ file := "b.py", line := some 3, message := "bad", text := none, offset := none }]).map
        Prod.fst = payloadKeys ∧
    List.lookup "boardId" (buildPayload none
        [{ file := "b.py", line := some 3, message := "bad", text := none, offset := none }])
      = some (optStr none) ∧
    List.lookup "timestamp" (buildPayload none
        [{ file := "b.py", line := some 3, message := "bad", text := none, offset := none }])
      = some JValue.null ∧
    List.lookup "file" (buildPayload none
        [{ file := "b.py", line := some 3, message := "bad", text := none, offset := none }])
      = some (JValue.str (SyntaxIssue.file
          { file := "b.py", line := some 3, message := "bad", text := none, offset := none })) ∧
    List.lookup "line" (buildPayload none
        [{ file := "b.py", line := some 3, message := "bad", text := none, offset := none }])
      = some (optNat (SyntaxIssue.line
          { file := "b.py", line := some 3, message := "bad", text := none, offset := none })) ∧
    List.lookup "exceptionType" (buildPayload none
        [{ file := "b.py", line := some 3, message := "bad", text := none, offset := none }])
      = some (JValue.str "SyntaxError") ∧
    List.lookup "requestPath" (buildPayload none
        [{ file := "b.py", line := some 3, message := "bad", text := none, offset := none }])
      = some (JValue.str "SYNTAX_CHECK") ∧
    List.lookup "requestMethod" (buildPayload none
        [{ file := "b.py", line := some 3, message := "bad", text := none, offset := none }])
      = some (JValue.str "SYNTAX_CHECK") ∧
    List.lookup "userAgent" (buildPayload none
        [{ file := "b.py", line := some 3, message := "bad", text := none, offset := none }])
      = some (JValue.str "SYNTAX_CHECKER") :=
  payload_shape none
    { file := "b.py", line := some 3, message := "bad", text := none, offset := none }
    [] "http://collector" (by decide) (PostResult.response 500)

/-- C7 counterexample: for an issue whose offending text is present but
empty, the source omits the Code suffix, so the message differs from the
claimed format that appends it whenever the text is present. -/
theorem message_code_suffix_cex :
    (SyntaxIssue.text { file := "a.py", line := some 3, message := "bad"
                        , text := some "", offset := none }).isSome = true ∧
    error_message [{ file := "a.py", line := some 3, message := "bad"
                     , text := some "", offset := none }]
      = "File: a.py, Line: 3, Error: bad" ∧
    claimIssueMessage { file := "a.py", line := some 3, message := "bad"
                        , text := some "", offset := none } ≠
      formatIssueMsg { file := "a.py", line := some 3, message := "bad"
                       , text := some "", offset := none } := by
  refine ⟨rfl, by decide, by decide⟩

/-- C7 amended: the aggregate message is the semicolon-joined issue list,
each issue formatted with file, line (None when absent) and error, with
the Code suffix appended exactly when the offending text is present and
non-empty. -/
theorem message_format_amended (errors : List SyntaxIssue) :
    error_message errors = specMessage errors := by
  unfold error_message specMessage
  congr 1
  apply List.map_congr_left
  intro err _
  unfold formatIssueMsg specIssueMessage
  cases htext : err.text with
  | none => exact (str_append_empty _).symm
  | some t =>
    by_cases ht : t = ""
    · simp only [ht, if_true]
      exact (str_append_empty _).symm
    · simp only [ht, if_false]
      exact str_append_assoc _ ", Code: " t.trim

/-- C8: evaluation of the intended stack-trace builder (line 58 of the
source as the spec words it, since the line as written does not compile)
at a concrete issue list: one line per issue, in order, with the question
mark replacing an absent line number. -/
theorem stack_trace_intended_format :
    stack_trace
        [{ file := "b.py", line := some 3, message := "bad", text := none, offset := none },
         { file := "c.py", line := none, message := "worse", text := none, offset := none }]
      = "  File \"b.py\", line 3\n  File \"c.py\", line ?" := by decide

/-- C9: the reporter returns normally for every environment, issue list
and transmission outcome - a response of any status, a network failure or
a timeout - and it attempts at most one request, so it never propagates
an error and never retries. -/
theorem reporter_never_propagates (env : Env) (errors : List SyntaxIssue) (pr : PostResult) :
    (send_syntax_error_to_endpoint env errors pr).result = Except.ok () ∧
    (send_syntax_error_to_endpoint env errors pr).requests.length ≤ 1 := by
  cases henv : env.runtime_error_endpoint_url with
  | none => simp [send_syntax_error_to_endpoint, henv]
  | some url =>
    by_cases hu : url = ""
    · simp [send_syntax_error_to_endpoint, henv, hu]
    · have hsend : send_error pr = Except.ok () := by
        cases pr <;> rfl
      simp [send_syntax_error_to_endpoint, henv, hu, hsend]

/-- C10: every issue the validator produces carries the basename of the
input path - which splits the path into its directory part and a
slash-free final component - while the stderr diagnostic line starts with
the full path. -/
theorem issue_file_is_basename (path msg : String) (lineno : Option Nat)
    (text : Option String) (offset : Option Nat) (err : SyntaxIssue) :
    ( check_syntax path (ParseOutcome.syntaxError lineno msg text offset)).map
        SyntaxIssue.file = some (basename path) ∧
    ( check_syntax path (ParseOutcome.otherError msg)).map SyntaxIssue.file
      = some (basename path) ∧
    (basename path).data.all (fun c => c != '/') = true ∧
    path = dirnameOf path ++ basename path ∧
    (dirnameOf path = "" ∨ (dirnameOf path).data.getLast? = some '/') ∧
    diagnosticLine path err
      = ("Syntax error in " ++ path)
        ++ (": " ++ err.message ++ " at line " ++ pyStrOptNat err.line) := by
  obtain ⟨hdec, hlast⟩ := basename_decomp path
  refine ⟨rfl, rfl, basename_all_no_slash path, hdec, hlast, ?_⟩
  apply String.ext
  simp [diagnosticLine, String.data_append, List.append_assoc]

end CheckSyntaxPy
